import Mathlib

/-!
Verification of the WizardLM-Evol-Instruct-V2 data module
(`lit_gpt/datamodules/wizardlm_evol_instruct_v2.py`).

The formatter `format_dataset` and the `WizardLMEvolInstructV2` data-module
lifecycle (`__init__` / `connect` / `setup`) are embedded shallowly: Python
dicts and TypedDicts become structures, the fallible list indexing
(`conversation[0]`, `conversation[1]`, which may raise `IndexError`) becomes
`Option`, and the warnings printed by the formatter are collected in a list
of message strings.  External collaborators (the HuggingFace download, the
tokenizer, the prompt style, the `SFTDataset` wrapper) are modelled from the
spec as inert data, since the spec excludes their internals.
-/

/-- A single conversation turn of a raw WizardLM row: the speaker role
(source key `from`, a string such as "human" or "gpt") and the text. -/
structure WizardLMEvolInstructV2Turn where
  «from» : String
  value : String
deriving DecidableEq

/-- A raw WizardLM dataset row (`WizardLMEvolInstructV2Row`): an ordered
list of conversation turns and an identifier string `idx`. -/
structure WizardLMEvolInstructV2Row where
  conversations : List WizardLMEvolInstructV2Turn
  idx : String
deriving DecidableEq

/-- A formatted single-turn SFT record
(`FormattedSFTSingleturnConversation`). -/
structure FormattedSFTSingleturnConversation where
  instruction : String
  input : String
  output : String
deriving DecidableEq

/-- The warning printed when the first turn's role is not "human"
(source line 125-127). -/
def human_role_warning (idx observed : String) : String :=
  "WARN: WizardLM row[" ++ idx ++
    "] is corrupted. Expected role to be `user`, but is `" ++ observed ++ "` instead."

/-- The warning printed when the second turn's role is not "gpt"
(source line 130-133). -/
def assistant_role_warning (idx observed : String) : String :=
  "WARN: WizardLM row[" ++ idx ++
    "] is corrupted. Expected role to be `assistant`, but is `" ++ observed ++ "` instead."

/-- One iteration of the `for entry in dataset` loop body of
`format_dataset` (source lines 120-140): reads `conversations[0]` and
`conversations[1]` (`none` models the uncaught `IndexError` when a turn is
missing), collects the role-mismatch warnings, and builds the record
`\x7b instruction, input: "", output \x7d`. -/
def format_entry (entry : WizardLMEvolInstructV2Row) :
    Option (List String × FormattedSFTSingleturnConversation) :=
  match entry.conversations[0]? with
  | none => none
  | some human_message =>
    let warns₀ : List String :=
      if human_message.«from» ≠ "human" then
        [human_role_warning entry.idx human_message.«from»]
      else []
    match entry.conversations[1]? with
    | none => none
    | some ai_message =>
      let warns₁ : List String :=
        if ai_message.«from» ≠ "gpt" then
          [assistant_role_warning entry.idx ai_message.«from»]
        else []
      some (warns₀ ++ warns₁,
        { instruction := human_message.value
          input := ""
          output := ai_message.value })

/-- The formatter `format_dataset` (source lines 113-142).  Returns the
collected warning messages and the formatted records; `none` models the
uncaught `IndexError` raised when some row has fewer than two turns.  The
parameter `include_multi_turn_conversations` is kept from the source
signature (it is never read by the body). -/
def format_dataset (dataset : List WizardLMEvolInstructV2Row)
    (include_multi_turn_conversations : Bool) :
    Option (List String × List FormattedSFTSingleturnConversation) :=
  match dataset with
  | [] => some ([], [])
  | entry :: rest =>
    match format_entry entry,
        format_dataset rest include_multi_turn_conversations with
    | some (w, r), some (ws, rs) => some (w ++ ws, r :: rs)
    | _, _ => none

/-- Modelled from the spec: the tokenizer is an external collaborator
("encode(text) -> token ids"), consumed only by the downstream dataset
wrapper and never inspected by this module; it is modelled as inert data. -/
structure Tokenizer where
  tid : Nat
deriving DecidableEq

/-- Modelled from the spec: the prompt-style collaborator is "resolved by
name (e.g., a chat-markup style identifier) to a strategy object" consumed
only by the downstream dataset wrapper; it is modelled as the wrapped name. -/
structure PromptStyle where
  name : String
deriving DecidableEq

/-- Modelled from the spec: `PromptStyle.from_name` resolves a prompt-style
selector string to its strategy object. -/
def PromptStyle.from_name (n : String) : PromptStyle := ⟨n⟩

/-- Modelled from the spec: `SFTDataset` (the training-ready wrapper from
`lit_gpt.datamodules.sft_dataset_base`, not under src) is "treated as
consumes instruction/input/output records"; it is modelled as a record of
its constructor arguments, exactly the ones passed at source lines 89-96. -/
structure SFTDataset where
  data : List FormattedSFTSingleturnConversation
  tokenizer : Option Tokenizer
  prompt_style : PromptStyle
  max_seq_length : Int
  mask_prompt : Bool
  ignore_index : Int
deriving DecidableEq

/-- The state of a `WizardLMEvolInstructV2` data-module instance: the
dataclass fields of source lines 43-56 plus `prompt_style` / `num_workers`
(set in `__init__`, lines 58-62) and `mask_prompt` / `ignore_index` /
`num_workers` inherited from the `DataModule` base class (not under src;
modelled from the spec as stored masking settings). -/
structure WizardLMEvolInstructV2 where
  include_multiturn_conversations : Bool
  download_dir : String
  repo_id : String
  prompt_style : PromptStyle
  num_workers : Nat
  tokenizer : Option Tokenizer
  batch_size : Int
  max_seq_length : Int
  mask_prompt : Bool
  ignore_index : Int
  train_dataset : Option SFTDataset
  test_dataset : Option SFTDataset
deriving DecidableEq

/-- The default HuggingFace repository identifier (source line 15). -/
def HUGGINGFACE_ID : String := "WizardLM/WizardLM_evol_instruct_V2_196k"

/-- The default download directory (source line 16). -/
def DOWNLOAD_DIR : String := "./data/sft/wizardlm-evol-instruct-v2"

/-- The bundle returned by `setup` (`PreparedWizardLMEvolInstructV2`,
source lines 19-22): a mapping with exactly the keys `train_dataset`,
`val_dataset` and `test_dataset`. -/
structure PreparedWizardLMEvolInstructV2 where
  train_dataset : Option SFTDataset
  val_dataset : Option SFTDataset
  test_dataset : Option SFTDataset
deriving DecidableEq

/-- The constructor `__init__` (source lines 58-62): the dataclass fields
keep their declared defaults, `prompt_style` is resolved by name, and
`num_workers` is overwritten only when the argument is truthy.  The
base-class defaults for `mask_prompt`, `ignore_index` and `num_workers`
are not under src and are taken as parameters (modelled from the spec). -/
def WizardLMEvolInstructV2.init (prompt_style : String) (num_workers : Option Nat)
    (base_mask_prompt : Bool) (base_ignore_index : Int) (base_num_workers : Nat) :
    WizardLMEvolInstructV2 :=
  { include_multiturn_conversations := false
    download_dir := DOWNLOAD_DIR
    repo_id := HUGGINGFACE_ID
    prompt_style := PromptStyle.from_name prompt_style
    num_workers :=
      match num_workers with
      | some n => if n ≠ 0 then n else base_num_workers
      | none => base_num_workers
    tokenizer := none
    batch_size := 1
    max_seq_length := -1
    mask_prompt := base_mask_prompt
    ignore_index := base_ignore_index
    train_dataset := none
    test_dataset := none }

/-- The `connect` operation (source lines 64-72): stores the tokenizer and
batch size, and stores `max_seq_length` with `-1` standing for `None`. -/
def WizardLMEvolInstructV2.connect (self : WizardLMEvolInstructV2)
    (tokenizer : Option Tokenizer) (batch_size : Int)
    (max_seq_length : Option Int) : WizardLMEvolInstructV2 :=
  { self with
    tokenizer := tokenizer
    batch_size := batch_size
    max_seq_length :=
      match max_seq_length with
      | none => -1
      | some m => m }

/-- The `setup` operation (source lines 82-110).  `prepare_data` performs
external network I/O (`load_dataset`), so its result — the list of fetched
splits — is passed in as the `fetched` argument; `setup` reads split 0 as
the training split, formats it, wraps the result in an `SFTDataset`
together with the stored settings, assigns it to `self.train_dataset`, and
returns the updated state with the bundle whose `val_dataset` and
`test_dataset` entries are both read from `self.test_dataset` (lines
106-110).  `none` models an uncaught exception (a missing split or a
formatter `IndexError`). -/
def WizardLMEvolInstructV2.setup (self : WizardLMEvolInstructV2)
    (fetched : List (List WizardLMEvolInstructV2Row)) (stage : String) :
    Option (WizardLMEvolInstructV2 × PreparedWizardLMEvolInstructV2) :=
  match fetched[0]? with
  | none => none
  | some split₀ =>
    match format_dataset split₀ self.include_multiturn_conversations with
    | none => none
    | some (_, train_data) =>
      let sft : SFTDataset :=
        { data := train_data
          tokenizer := self.tokenizer
          prompt_style := self.prompt_style
          max_seq_length := self.max_seq_length
          mask_prompt := self.mask_prompt
          ignore_index := self.ignore_index }
      let updated := { self with train_dataset := some sft }
      some (updated,
        { train_dataset := some sft
          val_dataset := updated.test_dataset
          test_dataset := updated.test_dataset })

/-- The states a `WizardLMEvolInstructV2` instance can be in: constructed
by `__init__`, then driven through any sequence of `connect` and
(successful) `setup` calls. -/
inductive Reachable : WizardLMEvolInstructV2 → Prop
  | init (ps : String) (nw : Option Nat) (mp : Bool) (ii : Int) (bnw : Nat) :
      Reachable (WizardLMEvolInstructV2.init ps nw mp ii bnw)
  | connect (s : WizardLMEvolInstructV2) (tok : Option Tokenizer)
      (bs : Int) (msl : Option Int) :
      Reachable s → Reachable (s.connect tok bs msl)
  | setup (s : WizardLMEvolInstructV2)
      (fetched : List (List WizardLMEvolInstructV2Row)) (stage : String)
      (s' : WizardLMEvolInstructV2) (b : PreparedWizardLMEvolInstructV2) :
      Reachable s → s.setup fetched stage = some (s', b) → Reachable s'

/-- Unfolding lemma: on a row with at least two turns, `format_entry`
succeeds and builds the record from the two turns' `value` fields, warning
on each mismatched role. -/
lemma format_entry_some (e : WizardLMEvolInstructV2Row)
    (t₀ t₁ : WizardLMEvolInstructV2Turn)
    (h₀ : e.conversations[0]? = some t₀) (h₁ : e.conversations[1]? = some t₁) :
    format_entry e = some
      ((if t₀.«from» ≠ "human" then [human_role_warning e.idx t₀.«from»] else []) ++
        (if t₁.«from» ≠ "gpt" then [assistant_role_warning e.idx t₁.«from»] else []),
        ⟨t₀.value, "", t₁.value⟩) := by
  simp only [format_entry, h₀, h₁]

/-- A row with fewer than two turns makes `format_entry` fail. -/
lemma format_entry_eq_none_of_short (e : WizardLMEvolInstructV2Row)
    (h : e.conversations.length < 2) : format_entry e = none := by
  obtain ⟨c, ix⟩ := e
  rcases c with _ | ⟨a, _ | ⟨b, rest⟩⟩
  · rfl
  · rfl
  · simp only [WizardLMEvolInstructV2Row.conversations, List.length_cons] at h
    omega

/-- `format_entry` fails exactly on the rows with fewer than two turns. -/
lemma format_entry_eq_none_iff (e : WizardLMEvolInstructV2Row) :
    format_entry e = none ↔ e.conversations.length < 2 := by
  constructor
  · intro h
    by_contra hlen
    push_neg at hlen
    obtain ⟨t₀, h₀⟩ : ∃ t, e.conversations[0]? = some t :=
      ⟨_, List.getElem?_eq_getElem (by omega)⟩
    obtain ⟨t₁, h₁⟩ : ∃ t, e.conversations[1]? = some t :=
      ⟨_, List.getElem?_eq_getElem (by omega)⟩
    rw [format_entry_some e t₀ t₁ h₀ h₁] at h
    exact Option.noConfusion h
  · exact format_entry_eq_none_of_short e

/-- The record produced for any row has an empty `input` field. -/
lemma format_entry_input_empty (e : WizardLMEvolInstructV2Row)
    (w : List String) (r : FormattedSFTSingleturnConversation)
    (h : format_entry e = some (w, r)) : r.input = "" := by
  rcases h₀ : e.conversations[0]? with _ | t₀
  · simp [format_entry, h₀] at h
  · rcases h₁ : e.conversations[1]? with _ | t₁
    · simp [format_entry, h₀, h₁] at h
    · rw [format_entry_some e t₀ t₁ h₀ h₁] at h
      simp at h
      obtain ⟨-, hr⟩ := h
      rw [← hr]

/-- `format_dataset` fails exactly when some row has fewer than two turns. -/
lemma format_dataset_none_characterization (d : List WizardLMEvolInstructV2Row)
    (b : Bool) :
    format_dataset d b = none ↔ ∃ r ∈ d, r.conversations.length < 2 := by
  induction d with
  | nil => simp [format_dataset]
  | cons entry rest ih =>
    rcases he : format_entry entry with _ | ⟨w, r⟩ <;>
      rcases hrest : format_dataset rest b with _ | ⟨ws, rs⟩
    · have hshort := (format_entry_eq_none_iff entry).mp he
      simp only [format_dataset, he, hrest]
      exact iff_of_true trivial ⟨entry, List.mem_cons_self entry rest, hshort⟩
    · have hshort := (format_entry_eq_none_iff entry).mp he
      simp only [format_dataset, he, hrest]
      exact iff_of_true trivial ⟨entry, List.mem_cons_self entry rest, hshort⟩
    · obtain ⟨x, hx, hxs⟩ := ih.mp hrest
      simp only [format_dataset, he, hrest]
      exact iff_of_true trivial ⟨x, List.mem_cons_of_mem entry hx, hxs⟩
    · have hrestno : ¬ ∃ r ∈ rest, r.conversations.length < 2 := fun hx => by
        rw [ih.mpr hx] at hrest
        exact Option.noConfusion hrest
      have hlong : ¬ entry.conversations.length < 2 := fun hs => by
        rw [(format_entry_eq_none_iff entry).mpr hs] at he
        exact Option.noConfusion he
      simp only [format_dataset, he, hrest]
      refine iff_of_false (by simp) ?_
      rintro ⟨x, hx, hxs⟩
      rcases List.mem_cons.mp hx with hx | hx
      · exact hlong (hx ▸ hxs)
      · exact hrestno ⟨x, hx, hxs⟩

/-- Successful runs of `format_dataset` preserve length and are
order-preserving: record `i` is the record `format_entry` builds from
row `i`. -/
lemma format_dataset_some_characterization (d : List WizardLMEvolInstructV2Row)
    (b : Bool) (ws : List String) (out : List FormattedSFTSingleturnConversation)
    (h : format_dataset d b = some (ws, out)) :
    out.length = d.length ∧
      ∀ i : Nat, out[i]? = (d[i]?.bind format_entry).map Prod.snd := by
  induction d generalizing ws out with
  | nil =>
    simp [format_dataset] at h
    obtain ⟨-, hout⟩ := h
    subst hout
    simp
  | cons entry rest ih =>
    rcases he : format_entry entry with _ | ⟨w, r⟩ <;>
      rcases hrest : format_dataset rest b with _ | ⟨ws', rs⟩ <;>
      simp only [format_dataset, he, hrest, reduceCtorEq, Option.some.injEq,
        Prod.mk.injEq] at h
    obtain ⟨-, hout⟩ := h
    subst hout
    obtain ⟨hlen, hidx⟩ := ih ws' rs hrest
    refine ⟨by simp [hlen], ?_⟩
    intro i
    cases i with
    | zero => simp [he]
    | succ n => simpa using hidx n

/-- The `SFTDataset` constructed by `setup` (source lines 89-96): the
formatted training data together with the stored tokenizer, prompt style,
maximum sequence length and masking settings. -/
def WizardLMEvolInstructV2.builtSFT (self : WizardLMEvolInstructV2)
    (train_data : List FormattedSFTSingleturnConversation) : SFTDataset :=
  SFTDataset.mk train_data self.tokenizer self.prompt_style
    self.max_seq_length self.mask_prompt self.ignore_index

/-- Characterization of a successful `setup` run: split 0 of the fetched
splits was formatted successfully, the resulting `SFTDataset` wraps the
formatted data together with the stored settings, it is assigned to
`train_dataset`, and the bundle's `val_dataset` / `test_dataset` entries
are both read from the (unchanged) `test_dataset` field. -/
lemma setup_some_characterization (self : WizardLMEvolInstructV2)
    (fetched : List (List WizardLMEvolInstructV2Row)) (stage : String)
    (s' : WizardLMEvolInstructV2) (bundle : PreparedWizardLMEvolInstructV2)
    (h : self.setup fetched stage = some (s', bundle)) :
    ∃ split₀ ws train_data,
      fetched[0]? = some split₀ ∧
      format_dataset split₀ self.include_multiturn_conversations =
        some (ws, train_data) ∧
      s' = { self with train_dataset := some (self.builtSFT train_data) } ∧
      bundle = PreparedWizardLMEvolInstructV2.mk
        (some (self.builtSFT train_data))
        self.test_dataset self.test_dataset := by
  rcases hsplit : fetched[0]? with _ | split₀ <;>
    simp only [WizardLMEvolInstructV2.setup, hsplit, reduceCtorEq] at h
  rcases hfmt : format_dataset split₀ self.include_multiturn_conversations with
    _ | ⟨ws, train_data⟩ <;>
    simp only [hfmt, reduceCtorEq, Option.some.injEq, Prod.mk.injEq] at h
  obtain ⟨hs, hb⟩ := h
  exact ⟨split₀, ws, train_data, rfl, hfmt, hs.symm, hb.symm⟩

/-- The well-formed example row of the spec:
conversations `[(human, "2+2?"), (gpt, "4")]`, idx `"7"`. -/
def sample_row : WizardLMEvolInstructV2Row :=
  ⟨[⟨"human", "2+2?"⟩, ⟨"gpt", "4"⟩], "7"⟩

/-- The formatted record the spec expects for `sample_row`. -/
def sample_record : FormattedSFTSingleturnConversation := ⟨"2+2?", "", "4"⟩

/-- The role-mismatched example row of the spec:
conversations `[(gpt, "oops"), (human, "hi")]`, idx `"9"`. -/
def mismatch_row : WizardLMEvolInstructV2Row :=
  ⟨[⟨"gpt", "oops"⟩, ⟨"human", "hi"⟩], "9"⟩

/-- A module state as produced by `__init__("chatml")` with sample
base-class settings. -/
def sample_module : WizardLMEvolInstructV2 :=
  WizardLMEvolInstructV2.init "chatml" none true (-100) 4

/-- The `SFTDataset` that `setup` builds on `sample_module` from the split
`[sample_row]`. -/
def sample_sft : SFTDataset := sample_module.builtSFT [sample_record]

/-- C1: on any input list of rows that each have at least two turns,
`format_dataset` succeeds, returns as many records as input rows with no
filtering, and is order-preserving: record `i` is the one derived (by the
loop body `format_entry`) from row `i`. -/
theorem format_dataset_length_and_order
    (d : List WizardLMEvolInstructV2Row) (b : Bool)
    (h : ∀ r ∈ d, 2 ≤ r.conversations.length) :
    ∃ ws out, format_dataset d b = some (ws, out) ∧
      out.length = d.length ∧
      ∀ i : Nat, out[i]? = (d[i]?.bind format_entry).map Prod.snd := by
  rcases ho : format_dataset d b with _ | ⟨ws, out⟩
  · rw [format_dataset_none_characterization] at ho
    obtain ⟨r, hr, hshort⟩ := ho
    have := h r hr
    omega
  · obtain ⟨hlen, hidx⟩ := format_dataset_some_characterization d b ws out ho
    exact ⟨ws, out, rfl, hlen, hidx⟩

/-- Witness for C1 at the concrete one-row dataset `[sample_row]`. -/
theorem format_dataset_length_and_order_witness :
    ∃ ws out, format_dataset [sample_row] false = some (ws, out) ∧
      out.length = [sample_row].length ∧
      ∀ i : Nat, out[i]? = ([sample_row][i]?.bind format_entry).map Prod.snd :=
  format_dataset_length_and_order [sample_row] false (by decide)

/-- C2: whenever `format_dataset` succeeds, the record at index `i`
carries row `i`'s first turn's value as `instruction` and row `i`'s second
turn's value as `output` (and an empty `input`). -/
theorem format_dataset_instruction_output
    (d : List WizardLMEvolInstructV2Row) (b : Bool)
    (ws : List String) (out : List FormattedSFTSingleturnConversation)
    (h : format_dataset d b = some (ws, out))
    (i : Nat) (hi : i < d.length)
    (t₀ t₁ : WizardLMEvolInstructV2Turn)
    (h₀ : (d.get ⟨i, hi⟩).conversations[0]? = some t₀)
    (h₁ : (d.get ⟨i, hi⟩).conversations[1]? = some t₁) :
    out[i]? = some ⟨t₀.value, "", t₁.value⟩ := by
  obtain ⟨-, hidx⟩ := format_dataset_some_characterization d b ws out h
  have hd : d[i]? = some (d.get ⟨i, hi⟩) := by
    rw [List.getElem?_eq_getElem hi]
    simp [List.get_eq_getElem]
  rw [hidx i, hd]
  show (format_entry (d.get ⟨i, hi⟩)).map Prod.snd = _
  rw [format_entry_some (d.get ⟨i, hi⟩) t₀ t₁ h₀ h₁]
  rfl

/-- Witness for C2 at `[sample_row]`, index 0: the spec's example record
`\x7b instruction: "2+2?", input: "", output: "4" \x7d`. -/
theorem format_dataset_instruction_output_witness :
    [sample_record][0]? = some ⟨"2+2?", "", "4"⟩ :=
  format_dataset_instruction_output [sample_row] false [] [sample_record]
    (by decide) 0 (by decide) ⟨"human", "2+2?"⟩ ⟨"gpt", "4"⟩ (by decide) (by decide)

/-- C3: every record in a result of `format_dataset` has an empty `input`
field. -/
theorem format_dataset_input_always_empty
    (d : List WizardLMEvolInstructV2Row) (b : Bool)
    (ws : List String) (out : List FormattedSFTSingleturnConversation)
    (h : format_dataset d b = some (ws, out)) :
    ∀ rec ∈ out, rec.input = "" := by
  intro rec hrec
  obtain ⟨-, hidx⟩ := format_dataset_some_characterization d b ws out h
  rw [List.mem_iff_getElem?] at hrec
  obtain ⟨i, hi⟩ := hrec
  rw [hidx i] at hi
  rcases hd : d[i]? with _ | entry <;> rw [hd] at hi
  · simp at hi
  · simp only [Option.bind_some, Option.map_eq_some'] at hi
    obtain ⟨⟨w, r⟩, hfe, hr⟩ := hi
    have := format_entry_input_empty entry w r hfe
    rw [← hr]
    exact this

/-- Witness for C3 at `[sample_row]` and its record. -/
theorem format_dataset_input_always_empty_witness :
    sample_record.input = "" :=
  format_dataset_input_always_empty [sample_row] false [] [sample_record]
    (by decide) sample_record (by decide)

/-- C4: a row with at least two turns but a mismatched role in either
position does not make `format_dataset` fail; it yields the record built
from the two turns' values exactly as for a well-formed row, plus a
warning naming the row's `idx` and the observed role for each mismatched
position. -/
theorem format_dataset_role_mismatch_warns
    (entry : WizardLMEvolInstructV2Row)
    (t₀ t₁ : WizardLMEvolInstructV2Turn) (b : Bool)
    (h₀ : entry.conversations[0]? = some t₀)
    (h₁ : entry.conversations[1]? = some t₁)
    (hmis : t₀.«from» ≠ "human" ∨ t₁.«from» ≠ "gpt") :
    ∃ w, format_dataset [entry] b = some (w, [⟨t₀.value, "", t₁.value⟩]) ∧
      (t₀.«from» ≠ "human" → human_role_warning entry.idx t₀.«from» ∈ w) ∧
      (t₁.«from» ≠ "gpt" → assistant_role_warning entry.idx t₁.«from» ∈ w) := by
  have hfe := format_entry_some entry t₀ t₁ h₀ h₁
  refine ⟨(if t₀.«from» ≠ "human" then [human_role_warning entry.idx t₀.«from»]
      else []) ++
    (if t₁.«from» ≠ "gpt" then [assistant_role_warning entry.idx t₁.«from»]
      else []), ?_, ?_, ?_⟩
  · simp only [format_dataset, hfe, List.append_nil]
  · intro hne
    simp [hne]
  · intro hne
    simp [hne]

/-- Witness for C4 at the spec's doubly-mismatched example row
`mismatch_row`. -/
theorem format_dataset_role_mismatch_warns_witness :
    ∃ w, format_dataset [mismatch_row] false = some (w, [⟨"oops", "", "hi"⟩]) ∧
      ("gpt" ≠ "human" → human_role_warning "9" "gpt" ∈ w) ∧
      ("human" ≠ "gpt" → assistant_role_warning "9" "human" ∈ w) :=
  format_dataset_role_mismatch_warns mismatch_row ⟨"gpt", "oops"⟩ ⟨"human", "hi"⟩
    false (by decide) (by decide) (by decide)

/-- C5: `format_dataset` fails (the uncaught index error, modelled as
`none`) exactly when some input row has fewer than two turns; such a row
is never turned into a partial record. -/
theorem format_dataset_fails_iff_short_row
    (d : List WizardLMEvolInstructV2Row) (b : Bool) :
    format_dataset d b = none ↔ ∃ r ∈ d, r.conversations.length < 2 :=
  format_dataset_none_characterization d b

/-- C6: the `include_multi_turn_conversations` parameter is dead — it
never changes the result of `format_dataset`. -/
theorem format_dataset_multiturn_flag_dead
    (d : List WizardLMEvolInstructV2Row) (b₁ b₂ : Bool) :
    format_dataset d b₁ = format_dataset d b₂ := by
  induction d with
  | nil => rfl
  | cons entry rest ih => simp only [format_dataset, ih]

/-- The congruence behind C7: `format_entry` only reads the first two
turns and the `idx` of a row. -/
lemma format_entry_congr (e₁ e₂ : WizardLMEvolInstructV2Row)
    (h₀ : e₁.conversations[0]? = e₂.conversations[0]?)
    (h₁ : e₁.conversations[1]? = e₂.conversations[1]?)
    (hidx : e₁.idx = e₂.idx) :
    format_entry e₁ = format_entry e₂ := by
  unfold format_entry
  rw [h₀, h₁, hidx]

/-- C7: only the first two turns and the `idx` of each row influence the
result of `format_dataset` — two datasets that agree pointwise on
`conversations[0]`, `conversations[1]` and `idx` yield identical results,
whatever later turns they carry. -/
theorem format_dataset_first_two_turns_only (b : Bool)
    (d₁ d₂ : List WizardLMEvolInstructV2Row)
    (h : List.Forall₂ (fun e₁ e₂ =>
      e₁.conversations[0]? = e₂.conversations[0]? ∧
      e₁.conversations[1]? = e₂.conversations[1]? ∧
      e₁.idx = e₂.idx) d₁ d₂) :
    format_dataset d₁ b = format_dataset d₂ b := by
  induction h with
  | nil => rfl
  | cons hpair _ ih =>
    obtain ⟨h₀, h₁, hidx⟩ := hpair
    simp only [format_dataset, format_entry_congr _ _ h₀ h₁ hidx, ih]

/-- Witness for C7: `sample_row` against the same row extended with a
third turn, which is silently discarded. -/
theorem format_dataset_first_two_turns_only_witness :
    format_dataset [sample_row] false =
      format_dataset
        [⟨[⟨"human", "2+2?"⟩, ⟨"gpt", "4"⟩, ⟨"human", "thanks"⟩], "7"⟩] false :=
  format_dataset_first_two_turns_only false _ _
    (List.Forall₂.cons ⟨rfl, rfl, rfl⟩ List.Forall₂.nil)

/-- C8: when the stored `test_dataset` is `none` (as in every reachable
state), a successful `setup` returns the bundle whose `train_dataset`
wraps the formatter's output over the fetched training split together with
the stored tokenizer, prompt style, `max_seq_length` and masking settings,
and whose `val_dataset` and `test_dataset` entries are `none`. -/
theorem setup_returns_bundle
    (self : WizardLMEvolInstructV2)
    (fetched : List (List WizardLMEvolInstructV2Row)) (stage : String)
    (s' : WizardLMEvolInstructV2) (bundle : PreparedWizardLMEvolInstructV2)
    (htest : self.test_dataset = none)
    (h : self.setup fetched stage = some (s', bundle)) :
    ∃ split₀ ws train_data,
      fetched[0]? = some split₀ ∧
      format_dataset split₀ self.include_multiturn_conversations =
        some (ws, train_data) ∧
      bundle.train_dataset = some (self.builtSFT train_data) ∧
      bundle.val_dataset = none ∧
      bundle.test_dataset = none := by
  obtain ⟨split₀, ws, td, h₁, h₂, -, h₄⟩ :=
    setup_some_characterization self fetched stage s' bundle h
  subst h₄
  exact ⟨split₀, ws, td, h₁, h₂, rfl, htest, htest⟩

/-- Witness for C8: `setup` on a freshly initialized module over the
one-row training split `[sample_row]`. -/
theorem setup_returns_bundle_witness :
    ∃ split₀ ws train_data,
      ([[sample_row]] : List (List WizardLMEvolInstructV2Row))[0]? =
        some split₀ ∧
      format_dataset split₀ sample_module.include_multiturn_conversations =
        some (ws, train_data) ∧
      (PreparedWizardLMEvolInstructV2.mk (some sample_sft) none
        none).train_dataset = some (sample_module.builtSFT train_data) ∧
      (PreparedWizardLMEvolInstructV2.mk (some sample_sft) none
        none).val_dataset = none ∧
      (PreparedWizardLMEvolInstructV2.mk (some sample_sft) none
        none).test_dataset = none :=
  setup_returns_bundle sample_module [[sample_row]] ""
    { sample_module with train_dataset := some sample_sft }
    (PreparedWizardLMEvolInstructV2.mk (some sample_sft) none none)
    rfl rfl

/-- C9: running `setup` a second time on the state left by a first run,
with the same fetched input, yields a bundle with the same `train_dataset`
content (the formatter is a pure function of its input, and `setup` only
replaces the stored `train_dataset`). -/
theorem setup_rerun_same_train
    (self : WizardLMEvolInstructV2)
    (fetched : List (List WizardLMEvolInstructV2Row)) (stage : String)
    (s₁ : WizardLMEvolInstructV2) (b₁ : PreparedWizardLMEvolInstructV2)
    (s₂ : WizardLMEvolInstructV2) (b₂ : PreparedWizardLMEvolInstructV2)
    (h₁ : self.setup fetched stage = some (s₁, b₁))
    (h₂ : s₁.setup fetched stage = some (s₂, b₂)) :
    b₁.train_dataset = b₂.train_dataset := by
  obtain ⟨sp₁, ws₁, td₁, hsp₁, hf₁, hstate₁, hb₁⟩ :=
    setup_some_characterization self fetched stage s₁ b₁ h₁
  obtain ⟨sp₂, ws₂, td₂, hsp₂, hf₂, hstate₂, hb₂⟩ :=
    setup_some_characterization s₁ fetched stage s₂ b₂ h₂
  rw [hsp₁] at hsp₂
  obtain rfl : sp₁ = sp₂ := Option.some_inj.mp hsp₂
  subst hstate₁
  have hf₂' : format_dataset sp₁ self.include_multiturn_conversations =
      some (ws₂, td₂) := hf₂
  rw [hf₁] at hf₂'
  obtain ⟨-, rfl⟩ : ws₁ = ws₂ ∧ td₁ = td₂ := by simpa using hf₂'
  subst hb₁
  subst hb₂
  rfl

/-- Witness for C9: two consecutive `setup` runs on `sample_module` over
the split `[sample_row]`. -/
theorem setup_rerun_same_train_witness :
    (PreparedWizardLMEvolInstructV2.mk (some sample_sft) none
      none).train_dataset =
    (PreparedWizardLMEvolInstructV2.mk (some sample_sft) none
      none).train_dataset :=
  setup_rerun_same_train sample_module [[sample_row]] ""
    { sample_module with train_dataset := some sample_sft }
    (PreparedWizardLMEvolInstructV2.mk (some sample_sft) none none)
    { sample_module with train_dataset := some sample_sft }
    (PreparedWizardLMEvolInstructV2.mk (some sample_sft) none none)
    rfl rfl

/-- C10: no operation of the module ever assigns `test_dataset`, so it is
`none` in every reachable state, and every bundle returned by `setup`
reads both its `val_dataset` and its `test_dataset` entry from that field:
the two entries are equal and `none`. -/
theorem test_dataset_never_assigned
    (s : WizardLMEvolInstructV2) (hs : Reachable s) :
    s.test_dataset = none ∧
    ∀ fetched stage s' bundle, s.setup fetched stage = some (s', bundle) →
      bundle.val_dataset = bundle.test_dataset ∧ bundle.val_dataset = none := by
  have hinv : ∀ t, Reachable t → t.test_dataset = none := by
    intro t ht
    induction ht with
    | init ps nw mp ii bnw => rfl
    | connect s tok bs msl hr ih => exact ih
    | setup s fetched stage s' b hr hst ih =>
      obtain ⟨sp, ws, td, -, -, hstate, -⟩ :=
        setup_some_characterization s fetched stage s' b hst
      rw [hstate]
      exact ih
  refine ⟨hinv s hs, ?_⟩
  intro fetched stage s' bundle hst
  obtain ⟨sp, ws, td, -, -, -, hb⟩ :=
    setup_some_characterization s fetched stage s' bundle hst
  subst hb
  exact ⟨rfl, hinv s hs⟩

/-- Witness for C10 at the freshly initialized `sample_module` and a
concrete `setup` run over `[sample_row]`. -/
theorem test_dataset_never_assigned_witness :
    sample_module.test_dataset = none ∧
    ((PreparedWizardLMEvolInstructV2.mk (some sample_sft) none
        none).val_dataset =
      (PreparedWizardLMEvolInstructV2.mk (some sample_sft) none
        none).test_dataset ∧
      (PreparedWizardLMEvolInstructV2.mk (some sample_sft) none
        none).val_dataset = none) :=
  ⟨(test_dataset_never_assigned sample_module
      (Reachable.init "chatml" none true (-100) 4)).1,
    (test_dataset_never_assigned sample_module
      (Reachable.init "chatml" none true (-100) 4)).2 [[sample_row]] ""
      { sample_module with train_dataset := some sample_sft }
      (PreparedWizardLMEvolInstructV2.mk (some sample_sft) none none) rfl⟩
